import Mathlib

/-!
Shallow embedding of the kotaemon multi-tenant identity / session / migration
subsystem (libs/ktem/ktem/services/tenant_auth.py, libs/ktem/ktem/utils/tenant_migration.py,
libs/ktem/ktem/db/tenant_models.py, startup wiring in libs/ktem/ktem/main.py).

Modelling conventions:
- timestamps are natural numbers (hours since an arbitrary epoch), so the 24-hour
  session timeout is `now + 24` and the comparison operators mirror the Python
  `datetime` comparisons;
- the relational store is an explicit `DB` record of lists; SQL `select ... .first()`
  is `List.find?` / head of a `List.filter`, row insertion is list append, and a
  committed transaction is the returned `DB` value (an aborted one returns the
  input unchanged);
- the SHA-256 digest is modelled as an injective tagging function: the proofs
  only rely on `verify_password p (hash_password p) = true` and on distinct
  passwords having distinct digests;
- `uuid.uuid4()` fresh identifiers are passed in as explicit arguments;
- the file-per-session store is the `sessions` list of the `DB`: `find?` is the
  file read, removing from the list is `unlink`, and prepending is the write.
-/

namespace Ktem

/-- UserRole enum from ktem/db/tenant_models.py. -/
inductive UserRole where
  | super_admin
  | admin
  | user
deriving DecidableEq

/-- TenantStatus enum from ktem/db/tenant_models.py. -/
inductive TenantStatus where
  | active
  | suspended
  | inactive
deriving DecidableEq

/-- Tenant row (BaseTenant in tenant_models.py); the opaque settings blob and
audit dates are omitted because no modelled operation reads them. -/
structure Tenant where
  id : String
  name : String
  domain : Option String
  status : TenantStatus
deriving DecidableEq

/-- TenantUser row (BaseTenantUser in tenant_models.py). `password` holds the
digest, `admin` is the legacy compatibility boolean. -/
structure TenantUser where
  id : String
  username : String
  username_lower : String
  email : String
  password : String
  tenant_id : String
  role : UserRole
  is_active : Bool
  admin : Bool
  last_login : Option Nat
deriving DecidableEq

/-- TenantInvitation row (tenant_models.py). -/
structure Invitation where
  id : String
  email : String
  tenant_id : String
  role : UserRole
  invited_by : String
  token : String
  expires_at : Nat
  accepted_at : Option Nat
  is_used : Bool
deriving DecidableEq

/-- TenantConversation row (BaseTenantConversation); only the fields written by
the migration engine are kept. -/
structure TenantConversation where
  id : String
  name : String
  user_id : Option String
  tenant_id : String
  is_public : Bool
  user : String
deriving DecidableEq

/-- TenantSettings row (BaseTenantSettings); only the fields written by the
migration engine are kept. -/
structure TenantSettings where
  id : String
  user_id : Option String
  tenant_id : String
  is_tenant_wide : Bool
  user : String
deriving DecidableEq

/-- Modelled from the spec: legacy single-tenant User (its class definition
lives in ktem.db.base_models, outside the provided sources); the fields are
exactly the ones the migration engine reads. -/
structure LegacyUser where
  id : String
  username : String
  username_lower : String
  password : String
  admin : Bool
deriving DecidableEq

/-- Modelled from the spec: legacy single-tenant Conversation; fields are the
ones the migration engine reads, with the legacy `user` owner as a string
whose empty value is the Python falsy case of `old_conv.user or None`. -/
structure LegacyConversation where
  id : String
  name : String
  user : String
  is_public : Bool
deriving DecidableEq

/-- Modelled from the spec: legacy single-tenant Settings row. -/
structure LegacySettings where
  id : String
  user : String
deriving DecidableEq

/-- Session record, mirroring the JSON document written by create_session
(one file per session id). -/
structure SessionRecord where
  session_id : String
  user_id : String
  username : String
  role : UserRole
  tenant_id : String
  tenant_name : String
  created_at : Nat
  expires_at : Nat
deriving DecidableEq

/-- The whole persisted state: the relational tables plus the file-backed
session store. -/
structure DB where
  tenants : List Tenant
  users : List TenantUser
  invitations : List Invitation
  tenantConversations : List TenantConversation
  tenantSettings : List TenantSettings
  legacyUsers : List LegacyUser
  legacyConversations : List LegacyConversation
  legacySettings : List LegacySettings
  sessions : List SessionRecord
deriving DecidableEq

/-- AuthUser dataclass from tenant_auth.py. -/
structure AuthUser where
  id : String
  username : String
  email : String
  tenant_id : String
  tenant_name : String
  role : UserRole
  is_active : Bool
  session_id : Option String
deriving DecidableEq

/-- AuthUser.is_admin property: role is admin or super_admin. -/
def AuthUser.is_admin (a : AuthUser) : Bool :=
  decide (a.role = UserRole.admin) || decide (a.role = UserRole.super_admin)

/-- AuthUser.is_super_admin property. -/
def AuthUser.is_super_admin (a : AuthUser) : Bool :=
  decide (a.role = UserRole.super_admin)

/-- Python str.lower modelled character-wise (ASCII case mapping, which is
all the modelled inputs use). -/
def pyLower (s : String) : String :=
  ⟨s.data.map Char.toLower⟩

/-- Python whitespace recognised by str.strip. -/
def isPyWhitespace (c : Char) : Bool :=
  c = ' ' || c = '\t' || c = '\n' || c = '\r' || c = '\x0b' || c = '\x0c'

/-- Python str.strip: drop whitespace from both ends. -/
def pyStrip (s : String) : String :=
  ⟨((s.data.dropWhile isPyWhitespace).reverse.dropWhile
      isPyWhitespace).reverse⟩

/-- SHA-256 digest of TenantAuthService.hash_password, modelled as an
injective tag. -/
def hash_password (password : String) : String :=
  "sha256$" ++ password

/-- TenantAuthService.verify_password: recompute and compare. -/
def verify_password (password hashed : String) : Bool :=
  hash_password password == hashed

/-- Session timeout (`_session_timeout_hours = 24`). -/
def session_timeout_hours : Nat := 24

/-- TenantAuthService._cleanup_expired_sessions: delete every record whose
expires_at lies strictly in the past. -/
def cleanupExpiredSessions (sessions : List SessionRecord) (now : Nat) :
    List SessionRecord :=
  sessions.filter (fun s => !(decide (now > s.expires_at)))

/-- TenantAuthService.create_session: opportunistic cleanup, then write one
fresh record expiring `session_timeout_hours` from now; returns its id. -/
def create_session (db : DB) (authUser : AuthUser) (now : Nat)
    (freshSessionId : String) : String × DB :=
  let cleaned := cleanupExpiredSessions db.sessions now
  let record : SessionRecord :=
    { session_id := freshSessionId
      user_id := authUser.id
      username := authUser.username
      role := authUser.role
      tenant_id := authUser.tenant_id
      tenant_name := authUser.tenant_name
      created_at := now
      expires_at := now + session_timeout_hours }
  (freshSessionId, { db with sessions := record :: cleaned })

/-- TenantAuthService.get_session: none on empty id, missing record, or when
now is strictly past expires_at (the expired record is deleted on read). -/
def get_session (db : DB) (sessionId : String) (now : Nat) :
    Option SessionRecord × DB :=
  if sessionId = "" then (none, db)
  else
    match db.sessions.find? (fun s => s.session_id == sessionId) with
    | none => (none, db)
    | some s =>
      if now > s.expires_at then
        (none, { db with
                  sessions := db.sessions.filter
                    (fun r => !(r.session_id == sessionId)) })
      else (some s, db)

/-- TenantAuthService.delete_session: unlink the session file, reporting
whether it existed. -/
def delete_session (db : DB) (sessionId : String) : Bool × DB :=
  match db.sessions.find? (fun s => s.session_id == sessionId) with
  | none => (false, db)
  | some _ =>
    (true, { db with
              sessions := db.sessions.filter
                (fun r => !(r.session_id == sessionId)) })

/-- Inner join of TenantUser with its Tenant on tenant_id, in user-table
order, as produced by `select(TenantUser, Tenant).join(...)`. -/
def userTenantRows (db : DB) : List (TenantUser × Tenant) :=
  db.users.filterMap (fun u =>
    (db.tenants.find? (fun t => t.id == u.tenant_id)).map (fun t => (u, t)))

/-- Row filter of authenticate_user: identity matches `username_lower` or the
stored email after lowercasing and stripping the input, optional tenant-domain
filter, only active users of active tenants. -/
def authFilter (ident : String) (tenantDomain : Option String)
    (row : TenantUser × Tenant) : Bool :=
  (row.1.username_lower == ident || row.1.email == ident)
  && (match tenantDomain with
      | none => true
      | some d => row.2.domain == some d)
  && row.1.is_active
  && decide (row.2.status = TenantStatus.active)

/-- Candidate rows of the authenticate_user query for a raw identity input:
the input is lowercased then stripped exactly as `username.lower().strip()`. -/
def authLookup (db : DB) (username : String) (tenantDomain : Option String) :
    List (TenantUser × Tenant) :=
  (userTenantRows db).filter (authFilter (pyStrip (pyLower username)) tenantDomain)

/-- TenantAuthService.authenticate_user: take the first candidate row, verify
the password, stamp last_login, and issue a session. -/
def authenticate_user (db : DB) (username password : String)
    (tenantDomain : Option String) (now : Nat) (freshSessionId : String) :
    Option AuthUser × DB :=
  match authLookup db username tenantDomain with
  | [] => (none, db)
  | (u, t) :: _ =>
    if verify_password password u.password then
      let db1 := { db with
                    users := db.users.map (fun v =>
                      if v.id = u.id then { v with last_login := some now }
                      else v) }
      let authUser : AuthUser :=
        { id := u.id, username := u.username, email := u.email
          tenant_id := t.id, tenant_name := t.name, role := u.role
          is_active := u.is_active, session_id := none }
      let res := create_session db1 authUser now freshSessionId
      (some { authUser with session_id := some res.1 }, res.2)
    else (none, db)

/-- Invitation sub-query of accept_invitation: an unused invitation carrying
the token whose expires_at is strictly in the future. -/
def findValidInvitation (db : DB) (token : String) (now : Nat) :
    Option Invitation :=
  db.invitations.find? (fun inv =>
    inv.token == token && !inv.is_used && decide (inv.expires_at > now))

/-- Existing-user sub-query of accept_invitation: a user of the invitation's
tenant with the requested username_lower or the invitation's email. -/
def findClashingUser (db : DB) (inv : Invitation) (username : String) :
    Option TenantUser :=
  db.users.find? (fun u =>
    u.tenant_id == inv.tenant_id
    && (u.username_lower == pyLower username || u.email == inv.email))

/-- Invitation table after marking `inv` used at instant `now`. -/
def markInvitationUsed (invitations : List Invitation) (inv : Invitation)
    (now : Nat) : List Invitation :=
  invitations.map (fun i =>
    if i.id = inv.id then { i with is_used := true, accepted_at := some now }
    else i)

/-- TenantAuthService.accept_invitation: find an unused, unexpired invitation
carrying the token, refuse when a user with the same username_lower or the
invitation's email already exists in its tenant, otherwise create the user and
mark the invitation used in the same transaction. -/
def accept_invitation (db : DB) (token username password : String) (now : Nat)
    (freshUserId : String) : Option TenantUser × DB :=
  match findValidInvitation db token now with
  | none => (none, db)
  | some inv =>
    match findClashingUser db inv username with
    | some _ => (none, db)
    | none =>
      let user : TenantUser :=
        { id := freshUserId
          username := username
          username_lower := pyLower username
          email := inv.email
          password := hash_password password
          tenant_id := inv.tenant_id
          role := inv.role
          is_active := true
          admin := decide (inv.role = UserRole.admin)
          last_login := none }
      (some user,
       { db with
          users := db.users ++ [user]
          invitations := markInvitationUsed db.invitations inv now })

/-- TenantAuthService.create_tenant: one new ACTIVE tenant plus one admin-role
user (legacy admin flag set) in a single transaction. -/
def create_tenant (db : DB) (name : String) (domain : Option String)
    (adminUsername adminEmail adminPassword : String)
    (freshTenantId freshUserId : String) : (Tenant × TenantUser) × DB :=
  let tenant : Tenant :=
    { id := freshTenantId, name := name, domain := domain
      status := TenantStatus.active }
  let adminUser : TenantUser :=
    { id := freshUserId
      username := adminUsername
      username_lower := pyLower adminUsername
      email := adminEmail
      password := hash_password adminPassword
      tenant_id := freshTenantId
      role := UserRole.admin
      is_active := true
      admin := true
      last_login := none }
  ((tenant, adminUser),
   { db with
      tenants := db.tenants ++ [tenant]
      users := db.users ++ [adminUser] })

/-- TenantAuthService.create_user: one new active user with the given role,
legacy admin flag derived as `role == ADMIN`. -/
def create_user (db : DB) (tenantId username email password : String)
    (role : UserRole) (freshUserId : String) : TenantUser × DB :=
  let user : TenantUser :=
    { id := freshUserId
      username := username
      username_lower := pyLower username
      email := email
      password := hash_password password
      tenant_id := tenantId
      role := role
      is_active := true
      admin := decide (role = UserRole.admin)
      last_login := none }
  (user, { db with users := db.users ++ [user] })

/-- TenantAuthService.invite_user: a fresh invitation record with an unused
token expiring seven days (168 hours) from now. -/
def invite_user (db : DB) (tenantId email : String) (role : UserRole)
    (invitedBy : String) (now : Nat) (freshInvitationId freshToken : String) :
    Invitation × DB :=
  let invitation : Invitation :=
    { id := freshInvitationId
      email := email
      tenant_id := tenantId
      role := role
      invited_by := invitedBy
      token := freshToken
      expires_at := now + 168
      accepted_at := none
      is_used := false }
  (invitation, { db with invitations := db.invitations ++ [invitation] })

/-- TenantAuthService.update_user_role: fetch by primary key; on hit, set the
role and recompute the legacy admin flag as `new_role == ADMIN`. -/
def update_user_role (db : DB) (userId : String) (newRole : UserRole) :
    Option TenantUser × DB :=
  match db.users.find? (fun u => u.id == userId) with
  | none => (none, db)
  | some u =>
    let u' := { u with role := newRole
                       admin := decide (newRole = UserRole.admin) }
    (some u',
     { db with
        users := db.users.map (fun v =>
          if v.id = userId then
            { v with role := newRole
                     admin := decide (newRole = UserRole.admin) }
          else v) })

/-- Migration report statuses. -/
inductive MigStatus where
  | success
  | skipped
  | failed
deriving DecidableEq

/-- Structured migration report (status plus per-entity migrated counts; the
counts are zero on the skipped path, which reports no counts in the code). -/
structure MigrationReport where
  status : MigStatus
  migratedUsers : Nat
  migratedConversations : Nat
  migratedSettings : Nat
deriving DecidableEq

/-- Report returned by the skipped branch of migrate_to_tenant_system. -/
def skippedReport : MigrationReport :=
  { status := MigStatus.skipped
    migratedUsers := 0
    migratedConversations := 0
    migratedSettings := 0 }

/-- TenantMigrationService.migrate_to_tenant_system: skip when any tenant
exists; otherwise create one default tenant and tenant-scoped copies of every
legacy user / conversation / settings row, preserving ids, in one commit. -/
def migrate_to_tenant_system (db : DB) (defaultTenantName : String)
    (defaultTenantDomain : Option String) (makeFirstUserAdmin : Bool)
    (freshTenantId : String) (_now : Nat) : MigrationReport × DB :=
  if !db.tenants.isEmpty then (skippedReport, db)
  else
    let tenant : Tenant :=
      { id := freshTenantId, name := defaultTenantName
        domain := defaultTenantDomain, status := TenantStatus.active }
    let newUsers : List TenantUser :=
      db.legacyUsers.enum.map (fun p =>
        let isAdmin := (decide (p.1 = 0) && makeFirstUserAdmin) || p.2.admin
        { id := p.2.id
          username := p.2.username
          username_lower := p.2.username_lower
          email := p.2.username
          password := p.2.password
          tenant_id := freshTenantId
          role := if isAdmin then UserRole.admin else UserRole.user
          is_active := true
          admin := p.2.admin
          last_login := none })
    let newConversations : List TenantConversation :=
      db.legacyConversations.map (fun c =>
        { id := c.id
          name := c.name
          user_id := if c.user = "" then none else some c.user
          tenant_id := freshTenantId
          is_public := c.is_public
          user := c.user })
    let newSettings : List TenantSettings :=
      db.legacySettings.map (fun s =>
        { id := s.id
          user_id := if s.user = "" then none else some s.user
          tenant_id := freshTenantId
          is_tenant_wide := decide (s.user = "")
          user := s.user })
    ({ status := MigStatus.success
       migratedUsers := newUsers.length
       migratedConversations := newConversations.length
       migratedSettings := newSettings.length },
     { db with
        tenants := db.tenants ++ [tenant]
        users := db.users ++ newUsers
        tenantConversations := db.tenantConversations ++ newConversations
        tenantSettings := db.tenantSettings ++ newSettings })

/-- Per-entity block of the verification report. -/
structure VerifyEntity where
  original : Nat
  migrated : Nat
  matched : Bool
deriving DecidableEq

/-- Verification report of TenantMigrationService.verify_migration. -/
structure VerifyReport where
  tenants_created : Nat
  migration_complete : Bool
  users : VerifyEntity
  conversations : VerifyEntity
  settings : VerifyEntity
deriving DecidableEq

/-- TenantMigrationService.verify_migration: re-count legacy vs tenant-scoped
rows per entity type and report per-entity match booleans. -/
def verify_migration (db : DB) : VerifyReport :=
  { tenants_created := db.tenants.length
    migration_complete := decide (db.tenants.length > 0)
    users :=
      { original := db.legacyUsers.length
        migrated := db.users.length
        matched := decide (db.legacyUsers.length = db.users.length) }
    conversations :=
      { original := db.legacyConversations.length
        migrated := db.tenantConversations.length
        matched := decide (db.legacyConversations.length
                            = db.tenantConversations.length) }
    settings :=
      { original := db.legacySettings.length
        migrated := db.tenantSettings.length
        matched := decide (db.legacySettings.length
                            = db.tenantSettings.length) } }

/-- The three startup states of TenantMigrationService.get_migration_status. -/
inductive MigrationState where
  | migrated
  | needs_migration
  | fresh_install
deriving DecidableEq

/-- TenantMigrationService.get_migration_status: tenants exist → migrated;
else legacy users exist → needs_migration; else fresh_install. -/
def get_migration_status (db : DB) : MigrationState :=
  if !db.tenants.isEmpty then MigrationState.migrated
  else if !db.legacyUsers.isEmpty then MigrationState.needs_migration
  else MigrationState.fresh_install

/-- Startup configuration values read from theflow settings (KH_DEFAULT_*). -/
structure StartupConfig where
  tenantName : String
  tenantDomain : Option String
  superAdminUsername : String
  superAdminEmail : String
  superAdminPassword : String
  adminUsername : String
  adminEmail : String
  adminPassword : String
  userUsername : String
  userEmail : String
  userPassword : String
deriving DecidableEq

/-- run_migration_if_needed (tenant_migration.py): on needs_migration run the
transform and report its verification outcome; on migrated do nothing; on
fresh_install call create_tenant with the super-admin credentials from the
configuration and report that a migration ran. -/
def run_migration_if_needed (db : DB) (cfg : StartupConfig)
    (freshTenantId freshUserId : String) (now : Nat) : Bool × DB :=
  match get_migration_status db with
  | MigrationState.needs_migration =>
    let res := migrate_to_tenant_system db cfg.tenantName cfg.tenantDomain
      true freshTenantId now
    if res.1.status = MigStatus.success then
      ((verify_migration res.2).migration_complete, res.2)
    else (false, res.2)
  | MigrationState.migrated => (false, db)
  | MigrationState.fresh_install =>
    let res := create_tenant db cfg.tenantName cfg.tenantDomain
      cfg.superAdminUsername cfg.superAdminEmail cfg.superAdminPassword
      freshTenantId freshUserId
    (true, res.2)

/-- ensure_default_tenant (tenant_migration.py): a no-op when any tenant
exists; otherwise create the default tenant via create_tenant with the
super-admin credentials, promote that account to SUPER_ADMIN, and add an
admin-role and a user-role account from the configuration. -/
def ensure_default_tenant (db : DB) (cfg : StartupConfig)
    (freshTenantId freshSuperId freshAdminId freshUserId : String) :
    Bool × DB :=
  if !db.tenants.isEmpty then (false, db)
  else
    let res := create_tenant db cfg.tenantName cfg.tenantDomain
      cfg.superAdminUsername cfg.superAdminEmail cfg.superAdminPassword
      freshTenantId freshSuperId
    let tenant := res.1.1
    let superUser := res.1.2
    let adminUser : TenantUser :=
      { id := freshAdminId
        username := cfg.adminUsername
        username_lower := pyLower cfg.adminUsername
        email := cfg.adminEmail
        password := hash_password cfg.adminPassword
        tenant_id := tenant.id
        role := UserRole.admin
        is_active := true
        admin := false
        last_login := none }
    let regularUser : TenantUser :=
      { id := freshUserId
        username := cfg.userUsername
        username_lower := pyLower cfg.userUsername
        email := cfg.userEmail
        password := hash_password cfg.userPassword
        tenant_id := tenant.id
        role := UserRole.user
        is_active := true
        admin := false
        last_login := none }
    (true,
     { res.2 with
        users := (res.2.users.map (fun u =>
          if u.id = superUser.id then { u with role := UserRole.super_admin }
          else u)) ++ [adminUser, regularUser] })

/-- Startup wiring in main.py: run_migration_if_needed first, and only when it
reports that no migration ran, fall through to ensure_default_tenant. -/
def startupTenantInit (db : DB) (cfg : StartupConfig)
    (freshTenantId freshUserId freshTenantId2 freshSuperId freshAdminId
      freshRegularId : String) (now : Nat) : DB :=
  let res := run_migration_if_needed db cfg freshTenantId freshUserId now
  if res.1 then res.2
  else (ensure_default_tenant res.2 cfg freshTenantId2 freshSuperId
    freshAdminId freshRegularId).2

/-! Concrete fixtures used by witnesses and counterexamples. -/

/-- Example tenant "Acme", active. -/
def exTenant : Tenant :=
  { id := "t1", name := "Acme", domain := some "acme.com"
    status := TenantStatus.active }

/-- Example admin user alice of Acme. -/
def exAlice : TenantUser :=
  { id := "u1"
    username := "alice"
    username_lower := "alice"
    email := "alice@acme.com"
    password := hash_password "pw123"
    tenant_id := "t1"
    role := UserRole.admin
    is_active := true
    admin := true
    last_login := none }

/-- Example pending invitation for bob2@acme.com in Acme, token "tok1",
expiring at hour 168. -/
def exInvitation : Invitation :=
  { id := "i1"
    email := "bob2@acme.com"
    tenant_id := "t1"
    role := UserRole.user
    invited_by := "u1"
    token := "tok1"
    expires_at := 168
    accepted_at := none
    is_used := false }

/-- Example database: one active tenant, one admin user, one pending
invitation, nothing else. -/
def exDb : DB :=
  { tenants := [exTenant]
    users := [exAlice]
    invitations := [exInvitation]
    tenantConversations := []
    tenantSettings := []
    legacyUsers := []
    legacyConversations := []
    legacySettings := []
    sessions := [] }

/-- Example pre-migration database: one legacy user, one legacy conversation,
one owner-less legacy settings row; no tenants. -/
def exLegacyDb : DB :=
  { tenants := []
    users := []
    invitations := []
    tenantConversations := []
    tenantSettings := []
    legacyUsers := [{ id := "lu1", username := "carol", username_lower := "carol"
                      password := hash_password "pwc", admin := true }]
    legacyConversations := [{ id := "lc1", name := "chat one", user := "lu1"
                              is_public := false }]
    legacySettings := [{ id := "ls1", user := "" }]
    sessions := [] }

/-- Example resolved AuthUser for alice. -/
def exAuthAlice : AuthUser :=
  { id := "u1", username := "alice", email := "alice@acme.com"
    tenant_id := "t1", tenant_name := "Acme", role := UserRole.admin
    is_active := true, session_id := none }

/-- Tenant of the stored-email counterexample. -/
def emailCaseTenant : Tenant :=
  { id := "t9", name := "CaseCo", domain := none
    status := TenantStatus.active }

/-- Active user whose stored email contains uppercase letters. -/
def emailCaseUser : TenantUser :=
  { id := "u9"
    username := "bobby"
    username_lower := "bobby"
    email := "Bob@x.com"
    password := hash_password "pw"
    tenant_id := "t9"
    role := UserRole.user
    is_active := true
    admin := false
    last_login := none }

/-- Database of the stored-email counterexample. -/
def emailCaseDb : DB :=
  { tenants := [emailCaseTenant]
    users := [emailCaseUser]
    invitations := []
    tenantConversations := []
    tenantSettings := []
    legacyUsers := []
    legacyConversations := []
    legacySettings := []
    sessions := [] }

/-- Completely empty database (a fresh install). -/
def emptyDb : DB :=
  { tenants := []
    users := []
    invitations := []
    tenantConversations := []
    tenantSettings := []
    legacyUsers := []
    legacyConversations := []
    legacySettings := []
    sessions := [] }

/-- Startup configuration with the code's documented defaults. -/
def defaultStartupConfig : StartupConfig :=
  { tenantName := "Default Organization"
    tenantDomain := none
    superAdminUsername := "superadmin"
    superAdminEmail := "superadmin@kotaemon.com"
    superAdminPassword := "superadmin"
    adminUsername := "admin"
    adminEmail := "admin@kotaemon.com"
    adminPassword := "admin"
    userUsername := "user"
    userEmail := "user@kotaemon.com"
    userPassword := "user" }

/-! Theorems. -/

/-- C10: every user-writing operation (create_user, accept_invitation,
update_user_role) leaves the legacy admin boolean equal to (role = admin) on
the written TenantUser; in particular a user created with role super_admin has
the legacy admin flag false. -/
theorem legacy_admin_flag_consistent (db : DB)
    (tenantId username email password : String) (role : UserRole)
    (freshUserId token username2 password2 : String) (now : Nat)
    (freshUserId2 userId : String) (newRole : UserRole) :
    ((create_user db tenantId username email password role freshUserId).1.admin
      = decide (role = UserRole.admin))
    ∧ (∀ u, (accept_invitation db token username2 password2 now
          freshUserId2).1 = some u
        → u.admin = decide (u.role = UserRole.admin))
    ∧ (∀ u, (update_user_role db userId newRole).1 = some u
        → u.admin = decide (u.role = UserRole.admin))
    ∧ ((create_user db tenantId username email password UserRole.super_admin
          freshUserId).1.admin = false)
    ∧ (∀ u, (update_user_role db userId UserRole.super_admin).1 = some u
        → u.admin = false) := by
  refine ⟨rfl, ?_, ?_, rfl, ?_⟩
  · intro u hu
    unfold accept_invitation at hu
    split at hu
    · exact absurd hu (by simp)
    · split at hu
      · exact absurd hu (by simp)
      · simp only [Option.some.injEq] at hu
        subst hu
        rfl
  · intro u hu
    unfold update_user_role at hu
    split at hu
    · exact absurd hu (by simp)
    · simp only [Option.some.injEq] at hu
      subst hu
      rfl
  · intro u hu
    unfold update_user_role at hu
    split at hu
    · exact absurd hu (by simp)
    · simp only [Option.some.injEq] at hu
      subst hu
      rfl

/-- Witness for legacy_admin_flag_consistent at concrete inputs: accepting the
pending invitation of exDb and touching user u1. -/
theorem legacy_admin_flag_consistent_witness :
    ((create_user exDb "t1" "dave" "dave@acme.com" "pwd" UserRole.user
        "u2").1.admin = decide (UserRole.user = UserRole.admin))
    ∧ (∀ u, (accept_invitation exDb "tok1" "bob2" "pw" 0 "u3").1 = some u
        → u.admin = decide (u.role = UserRole.admin))
    ∧ (∀ u, (update_user_role exDb "u1" UserRole.user).1 = some u
        → u.admin = decide (u.role = UserRole.admin))
    ∧ ((create_user exDb "t1" "dave" "dave@acme.com" "pwd"
          UserRole.super_admin "u2").1.admin = false)
    ∧ (∀ u, (update_user_role exDb "u1" UserRole.super_admin).1 = some u
        → u.admin = false) :=
  legacy_admin_flag_consistent exDb "t1" "dave" "dave@acme.com" "pwd"
    UserRole.user "u2" "tok1" "bob2" "pw" 0 "u3" "u1" UserRole.user

/-- C3: the migration engine is idempotent: with any tenant present it returns
the skipped report and leaves the state unchanged, and starting from a
tenant-free state the first run creates exactly one tenant while the second
run is a no-op with the skipped report. -/
theorem migration_idempotent (db : DB) (name : String) (dom : Option String)
    (mfa : Bool) (tid tid2 : String) (now now2 : Nat) :
    (db.tenants ≠ [] →
      migrate_to_tenant_system db name dom mfa tid now = (skippedReport, db))
    ∧ (db.tenants = [] →
      (migrate_to_tenant_system db name dom mfa tid now).2.tenants.length = 1
      ∧ migrate_to_tenant_system
          (migrate_to_tenant_system db name dom mfa tid now).2
          name dom mfa tid2 now2
        = (skippedReport,
           (migrate_to_tenant_system db name dom mfa tid now).2)) := by
  constructor
  · intro h
    unfold migrate_to_tenant_system
    simp [List.isEmpty_iff, h]
  · intro h
    constructor
    · unfold migrate_to_tenant_system
      simp [List.isEmpty_iff, h]
    · unfold migrate_to_tenant_system
      simp [List.isEmpty_iff, h]

/-- Witness for migration_idempotent: run the engine twice over the example
legacy database. -/
theorem migration_idempotent_witness :
    exLegacyDb.tenants = []
    ∧ ((migrate_to_tenant_system exLegacyDb "Default Organization" none true
          "t1" 0).2.tenants.length = 1
      ∧ migrate_to_tenant_system
          (migrate_to_tenant_system exLegacyDb "Default Organization" none
            true "t1" 0).2 "Default Organization" none true "t2" 5
        = (skippedReport,
           (migrate_to_tenant_system exLegacyDb "Default Organization" none
             true "t1" 0).2)) :=
  ⟨rfl,
   (migration_idempotent exLegacyDb "Default Organization" none true "t1"
     "t2" 0 5).2 rfl⟩

/-- C9: session round-trip: reading the session created for an authenticated
user at or before its expires_at returns a record carrying that user's id,
and reading it at any instant strictly past expires_at returns none. -/
theorem session_roundtrip (db : DB) (authUser : AuthUser) (now t : Nat)
    (fid : String) (hfid : fid ≠ "") :
    (t ≤ now + session_timeout_hours →
      ∃ s, (get_session (create_session db authUser now fid).2
              (create_session db authUser now fid).1 t).1 = some s
        ∧ s.user_id = authUser.id)
    ∧ (t > now + session_timeout_hours →
      (get_session (create_session db authUser now fid).2
          (create_session db authUser now fid).1 t).1 = none) := by
  constructor
  · intro ht
    unfold get_session create_session
    simp only
    rw [if_neg hfid]
    simp [List.find?, Nat.not_lt.mpr ht]
  · intro ht
    unfold get_session create_session
    simp only
    rw [if_neg hfid]
    simp [List.find?, ht]

/-- Witness for session_roundtrip: create a session for alice at hour 0, read
it back at hour 3 (valid) and at hour 30 (expired). -/
theorem session_roundtrip_witness :
    ("sid1" : String) ≠ ""
    ∧ (3 ≤ 0 + session_timeout_hours →
      ∃ s, (get_session (create_session exDb exAuthAlice 0 "sid1").2
              (create_session exDb exAuthAlice 0 "sid1").1 3).1 = some s
        ∧ s.user_id = exAuthAlice.id)
    ∧ (30 > 0 + session_timeout_hours →
      (get_session (create_session exDb exAuthAlice 0 "sid1").2
          (create_session exDb exAuthAlice 0 "sid1").1 30).1 = none) :=
  ⟨by decide,
   (session_roundtrip exDb exAuthAlice 0 3 "sid1" (by decide)).1,
   (session_roundtrip exDb exAuthAlice 0 30 "sid1" (by decide)).2⟩

/-- C5: for every invalid credential input — which subsumes a wrong password,
an unknown username/email, an inactive user, a non-active tenant, and a
mismatched tenant_domain, since in each of those cases no row passing the
lookup filter verifies the password — authenticate_user returns none and the
whole state, in particular the session store, is unchanged. -/
theorem authenticate_invalid_returns_none (db : DB)
    (username password : String) (dom : Option String) (now : Nat)
    (fid : String)
    (h : ∀ row ∈ authLookup db username dom,
        verify_password password row.1.password = false) :
    authenticate_user db username password dom now fid = (none, db) := by
  unfold authenticate_user
  cases hl : authLookup db username dom with
  | nil => rfl
  | cons r rest =>
    obtain ⟨u, t⟩ := r
    have hv := h (u, t) (by rw [hl]; exact List.mem_cons_self _ _)
    simp [hv]

/-- Witness for authenticate_invalid_returns_none: alice with a wrong
password. -/
theorem authenticate_invalid_returns_none_witness :
    (∀ row ∈ authLookup exDb "alice" none,
      verify_password "wrongpw" row.1.password = false)
    ∧ authenticate_user exDb "alice" "wrongpw" none 0 "sid1" = (none, exDb) :=
  ⟨by decide,
   authenticate_invalid_returns_none exDb "alice" "wrongpw" none 0 "sid1"
     (by decide)⟩

/-- C6: when the lookup yields exactly the row of an active user in an active
tenant and the password verifies, authenticate_user returns an AuthUser whose
is_admin holds exactly for the admin and super_admin roles and whose
session_id is the id of the single session record created on top of the
cleaned-up store. -/
theorem authenticate_valid_creates_session (db : DB)
    (username password : String) (dom : Option String) (now : Nat)
    (fid : String) (u : TenantUser) (t : Tenant)
    (hrow : authLookup db username dom = [(u, t)])
    (hpw : verify_password password u.password = true) :
    ∃ au, (authenticate_user db username password dom now fid).1 = some au
      ∧ au.id = u.id
      ∧ (au.is_admin = true
          ↔ (u.role = UserRole.admin ∨ u.role = UserRole.super_admin))
      ∧ au.session_id = some fid
      ∧ ∃ s, (authenticate_user db username password dom now fid).2.sessions
          = s :: cleanupExpiredSessions db.sessions now
        ∧ s.session_id = fid ∧ s.user_id = u.id := by
  unfold authenticate_user
  rw [hrow]
  simp only [hpw, if_true, create_session]
  exact ⟨_, rfl, rfl, by simp [AuthUser.is_admin], rfl, _, rfl, rfl, rfl⟩

/-- Witness for authenticate_valid_creates_session: alice logs in with her
correct password. -/
theorem authenticate_valid_creates_session_witness :
    authLookup exDb "alice" none = [(exAlice, exTenant)]
    ∧ verify_password "pw123" exAlice.password = true
    ∧ ∃ au, (authenticate_user exDb "alice" "pw123" none 0 "sid1").1 = some au
        ∧ au.id = exAlice.id
        ∧ (au.is_admin = true
            ↔ (exAlice.role = UserRole.admin
                ∨ exAlice.role = UserRole.super_admin))
        ∧ au.session_id = some "sid1"
        ∧ ∃ s, (authenticate_user exDb "alice" "pw123" none 0 "sid1").2.sessions
            = s :: cleanupExpiredSessions exDb.sessions 0
          ∧ s.session_id = "sid1" ∧ s.user_id = exAlice.id :=
  ⟨by decide, by decide,
   authenticate_valid_creates_session exDb "alice" "pw123" none 0 "sid1"
     exAlice exTenant (by decide) (by decide)⟩

/-- Helper: accept_invitation fails without touching the state when no
invitation row passes the token/unused/unexpired filter. -/
theorem accept_invitation_eq_none_of_find_none (db : DB)
    (token username password : String) (now : Nat) (fid : String)
    (h : findValidInvitation db token now = none) :
    accept_invitation db token username password now fid = (none, db) := by
  unfold accept_invitation
  rw [h]

/-- C1: acceptance of an invitation token is atomic with user creation and
consumes the token exactly once: every call either fails leaving the state
unchanged, or returns a state that simultaneously contains the created user
and the invitation marked used with accepted_at stamped, and on that state
any further accept_invitation with the same token fails and changes
nothing. -/
theorem accept_invitation_atomic_single_use (db : DB)
    (token username password : String) (now : Nat) (fid : String)
    (huniq : ∀ i ∈ db.invitations, ∀ j ∈ db.invitations,
        i.token = j.token → i = j) :
    accept_invitation db token username password now fid = (none, db)
    ∨ ∃ u db', accept_invitation db token username password now fid
          = (some u, db')
        ∧ u ∈ db'.users
        ∧ (∃ inv ∈ db'.invitations,
            inv.token = token ∧ inv.is_used = true
              ∧ inv.accepted_at = some now)
        ∧ ∀ username2 password2 now2 fid2,
            accept_invitation db' token username2 password2 now2 fid2
              = (none, db') := by
  unfold accept_invitation
  split
  next hfind => exact Or.inl rfl
  next inv hfind =>
    split
    next w huser => exact Or.inl rfl
    next huser =>
      right
      rw [findValidInvitation] at hfind
      have hmem := List.mem_of_find?_eq_some hfind
      have hpred := List.find?_some hfind
      simp only [Bool.and_eq_true, beq_iff_eq, Bool.not_eq_true',
        decide_eq_true_eq] at hpred
      obtain ⟨⟨htok, hunused⟩, hexp⟩ := hpred
      refine ⟨_, _, rfl, by simp, ?_, ?_⟩
      · refine ⟨{ inv with is_used := true, accepted_at := some now },
          ?_, htok, rfl, rfl⟩
        unfold markInvitationUsed
        have h1 := List.mem_map_of_mem (fun i : Invitation =>
          if i.id = inv.id then
            { i with is_used := true, accepted_at := some now }
          else i) hmem
        simpa using h1
      · intro username2 password2 now2 fid2
        apply accept_invitation_eq_none_of_find_none
        unfold findValidInvitation markInvitationUsed
        rw [List.find?_eq_none]
        intro x hx
        simp only [List.mem_map] at hx
        obtain ⟨i, hi, rfl⟩ := hx
        by_cases hid : i.id = inv.id
        · simp [hid]
        · simp only [if_neg hid, Bool.and_eq_true, beq_iff_eq,
            Bool.not_eq_true', decide_eq_true_eq, not_and]
          intro hpair
          exact absurd (congrArg Invitation.id
            (huniq i hi inv hmem (hpair.1.trans htok.symm))) hid

/-- Witness for accept_invitation_atomic_single_use: accepting the pending
invitation of exDb. -/
theorem accept_invitation_atomic_single_use_witness :
    (∀ i ∈ exDb.invitations, ∀ j ∈ exDb.invitations, i.token = j.token → i = j)
    ∧ (accept_invitation exDb "tok1" "bob2" "pw" 0 "u3" = (none, exDb)
      ∨ ∃ u db', accept_invitation exDb "tok1" "bob2" "pw" 0 "u3"
            = (some u, db')
          ∧ u ∈ db'.users
          ∧ (∃ inv ∈ db'.invitations,
              inv.token = "tok1" ∧ inv.is_used = true
                ∧ inv.accepted_at = some 0)
          ∧ ∀ username2 password2 now2 fid2,
              accept_invitation db' "tok1" username2 password2 now2 fid2
                = (none, db')) :=
  ⟨by decide,
   accept_invitation_atomic_single_use exDb "tok1" "bob2" "pw" 0 "u3"
     (by decide)⟩

/-- C2: accept_invitation returns a created user exactly when an invitation
with the token exists, is unused, expires strictly in the future, and its
tenant holds no user with the same username (case-insensitively) or the
invitation's email; it returns none in every other case. -/
theorem accept_invitation_success_iff (db : DB)
    (token username password : String) (now : Nat) (fid : String)
    (huniq : ∀ i ∈ db.invitations, ∀ j ∈ db.invitations,
        i.token = j.token → i = j)
    (hlower : ∀ u ∈ db.users, u.username_lower = pyLower u.username) :
    (accept_invitation db token username password now fid).1.isSome = true
    ↔ ∃ inv ∈ db.invitations, inv.token = token ∧ inv.is_used = false
        ∧ now < inv.expires_at
        ∧ ∀ u ∈ db.users, ¬(u.tenant_id = inv.tenant_id
            ∧ (pyLower u.username = pyLower username
                ∨ u.email = inv.email)) := by
  constructor
  · intro h
    unfold accept_invitation at h
    split at h
    next hfind => simp at h
    next inv hfind =>
      split at h
      next w huser => simp at h
      next huser =>
        rw [findValidInvitation] at hfind
        rw [findClashingUser] at huser
        have hmem := List.mem_of_find?_eq_some hfind
        have hpred := List.find?_some hfind
        simp only [Bool.and_eq_true, beq_iff_eq, Bool.not_eq_true',
          decide_eq_true_eq] at hpred
        obtain ⟨⟨htok, hunused⟩, hexp⟩ := hpred
        refine ⟨inv, hmem, htok, hunused, hexp, ?_⟩
        intro u hu hclash
        have hq := List.find?_eq_none.mp huser u hu
        simp only [Bool.and_eq_true, Bool.or_eq_true, beq_iff_eq,
          not_and, not_or] at hq
        rcases hclash with ⟨hten, hname | hmail⟩
        · exact (hq hten).1 ((hlower u hu).trans hname)
        · exact (hq hten).2 hmail
  · rintro ⟨inv, hinv, htok, hused, hexp, hnoclash⟩
    have hsome : (findValidInvitation db token now).isSome := by
      rw [findValidInvitation, List.find?_isSome]
      exact ⟨inv, hinv, by simp [htok, hused, hexp]⟩
    obtain ⟨inv', hfind⟩ := Option.isSome_iff_exists.mp hsome
    have hfind' : db.invitations.find? (fun inv =>
        inv.token == token && !inv.is_used
          && decide (inv.expires_at > now)) = some inv' := hfind
    have hpred := List.find?_some hfind'
    simp only [Bool.and_eq_true, beq_iff_eq, Bool.not_eq_true',
      decide_eq_true_eq] at hpred
    have hinv' : inv' = inv :=
      huniq inv' (List.mem_of_find?_eq_some hfind') inv hinv
        (hpred.1.1.trans htok.symm)
    subst hinv'
    have husers : findClashingUser db inv' username = none := by
      rw [findClashingUser, List.find?_eq_none]
      intro u hu
      have hnc := hnoclash u hu
      simp only [Bool.and_eq_true, Bool.or_eq_true, beq_iff_eq, not_and,
        not_or] at hnc ⊢
      intro hten
      have := hnc hten
      exact ⟨fun he => this.1 ((hlower u hu).symm.trans he), this.2⟩
    unfold accept_invitation
    split
    next hf => rw [hfind] at hf; cases hf
    next inv2 hf =>
      rw [hfind] at hf
      injection hf with h2
      subst h2
      split
      next w hu => rw [husers] at hu; cases hu
      next hu => simp

/-- Witness for accept_invitation_success_iff at the example database and its
pending token. -/
theorem accept_invitation_success_iff_witness :
    (∀ i ∈ exDb.invitations, ∀ j ∈ exDb.invitations, i.token = j.token → i = j)
    ∧ (∀ u ∈ exDb.users, u.username_lower = pyLower u.username)
    ∧ ((accept_invitation exDb "tok1" "bob2" "pw" 0 "u3").1.isSome = true
      ↔ ∃ inv ∈ exDb.invitations, inv.token = "tok1" ∧ inv.is_used = false
          ∧ 0 < inv.expires_at
          ∧ ∀ u ∈ exDb.users, ¬(u.tenant_id = inv.tenant_id
              ∧ (pyLower u.username = pyLower "bob2"
                  ∨ u.email = inv.email))) :=
  ⟨by decide, by decide,
   accept_invitation_success_iff exDb "tok1" "bob2" "pw" 0 "u3"
     (by decide) (by decide)⟩

/-- Helper: filtering a mapped list by a predicate every image satisfies
keeps every element. -/
theorem length_filter_of_map_proj {α β : Type} (l : List α) (f : α → β)
    (p : β → Bool) (h : ∀ a, p (f a) = true) :
    (List.filter p (l.map f)).length = l.length := by
  rw [List.filter_eq_self.mpr, List.length_map]
  intro x hx
  obtain ⟨a, ha, rfl⟩ := List.mem_map.mp hx
  exact h a

/-- C4: from a referentially consistent state with legacy users and no
tenants, a successful migration leaves as many TenantUsers in the default
tenant as there were legacy Users, and likewise for conversations and
settings, so verify_migration reports match = true for all three entity
types. -/
theorem migration_counts_match (db : DB) (name : String) (dom : Option String)
    (mfa : Bool) (tid : String) (now : Nat)
    (hnoten : db.tenants = [])
    (hlegacy : db.legacyUsers ≠ [])
    (hfkU : ∀ u ∈ db.users, ∃ t ∈ db.tenants, t.id = u.tenant_id)
    (hfkC : ∀ c ∈ db.tenantConversations, ∃ t ∈ db.tenants, t.id = c.tenant_id)
    (hfkS : ∀ s ∈ db.tenantSettings, ∃ t ∈ db.tenants, t.id = s.tenant_id) :
    (migrate_to_tenant_system db name dom mfa tid now).1.status
      = MigStatus.success
    ∧ ((migrate_to_tenant_system db name dom mfa tid now).2.users.filter
        (fun u => u.tenant_id == tid)).length = db.legacyUsers.length
    ∧ ((migrate_to_tenant_system db name dom mfa tid
          now).2.tenantConversations.filter
        (fun c => c.tenant_id == tid)).length = db.legacyConversations.length
    ∧ ((migrate_to_tenant_system db name dom mfa tid
          now).2.tenantSettings.filter
        (fun s => s.tenant_id == tid)).length = db.legacySettings.length
    ∧ (verify_migration
        (migrate_to_tenant_system db name dom mfa tid now).2).users.matched
      = true
    ∧ (verify_migration (migrate_to_tenant_system db name dom mfa tid
          now).2).conversations.matched = true
    ∧ (verify_migration (migrate_to_tenant_system db name dom mfa tid
          now).2).settings.matched = true := by
  have hU : db.users = [] := by
    rw [List.eq_nil_iff_forall_not_mem]
    intro u hu
    obtain ⟨t, ht, _⟩ := hfkU u hu
    rw [hnoten] at ht
    exact absurd ht (List.not_mem_nil t)
  have hC : db.tenantConversations = [] := by
    rw [List.eq_nil_iff_forall_not_mem]
    intro c hc
    obtain ⟨t, ht, _⟩ := hfkC c hc
    rw [hnoten] at ht
    exact absurd ht (List.not_mem_nil t)
  have hS : db.tenantSettings = [] := by
    rw [List.eq_nil_iff_forall_not_mem]
    intro s hs
    obtain ⟨t, ht, _⟩ := hfkS s hs
    rw [hnoten] at ht
    exact absurd ht (List.not_mem_nil t)
  refine ⟨?_, ?_, ?_, ?_, ?_, ?_, ?_⟩ <;>
    simp only [migrate_to_tenant_system, verify_migration, hnoten, hU, hC,
      hS, List.isEmpty_nil, Bool.not_true, Bool.false_eq_true, if_false,
      List.nil_append]
  · exact (length_filter_of_map_proj _ _ _ (fun a => by simp)).trans (by simp)
  · exact (length_filter_of_map_proj _ _ _ (fun a => by simp)).trans (by simp)
  · exact (length_filter_of_map_proj _ _ _ (fun a => by simp)).trans (by simp)
  · simp
  · simp
  · simp

/-- Witness for migration_counts_match over the example legacy database. -/
theorem migration_counts_match_witness :
    exLegacyDb.tenants = []
    ∧ exLegacyDb.legacyUsers ≠ []
    ∧ (migrate_to_tenant_system exLegacyDb "Default Organization" none true
        "t1" 0).1.status = MigStatus.success
    ∧ ((migrate_to_tenant_system exLegacyDb "Default Organization" none true
        "t1" 0).2.users.filter (fun u => u.tenant_id == "t1")).length
      = exLegacyDb.legacyUsers.length
    ∧ (verify_migration (migrate_to_tenant_system exLegacyDb
        "Default Organization" none true "t1" 0).2).users.matched = true
    ∧ (verify_migration (migrate_to_tenant_system exLegacyDb
        "Default Organization" none true "t1" 0).2).conversations.matched
      = true
    ∧ (verify_migration (migrate_to_tenant_system exLegacyDb
        "Default Organization" none true "t1" 0).2).settings.matched
      = true := by
  have h := migration_counts_match exLegacyDb "Default Organization" none
    true "t1" 0 rfl (by decide) (by decide) (by decide) (by decide)
  exact ⟨rfl, by decide, h.1, h.2.1, h.2.2.2.2.1, h.2.2.2.2.2.1,
    h.2.2.2.2.2.2⟩

/-- C7 counterexample: an active user of an active tenant whose stored email
contains an uppercase letter is not found when that exact stored email is
supplied with the correct password, because the code lowercases the input
before the exact comparison with the stored email. -/
theorem authenticate_stored_email_counterexample :
    (∃ u ∈ emailCaseDb.users, u.email = "Bob@x.com" ∧ u.is_active = true
      ∧ verify_password "pw" u.password = true
      ∧ ∃ t ∈ emailCaseDb.tenants, t.id = u.tenant_id
          ∧ t.status = TenantStatus.active)
    ∧ (authenticate_user emailCaseDb "Bob@x.com" "pw" none 0 "sid1").1
      = none := by decide

/-- C7 amended: a row passes the identity lookup exactly when the supplied
identity, lowercased and stripped, equals the stored username_lower or equals
the stored email (so the stored email finds the user only when it is already
in lowercase), under the optional domain filter and the active-user,
active-tenant restrictions. -/
theorem authLookup_matches_iff (db : DB) (username : String)
    (dom : Option String) (u : TenantUser) (t : Tenant) :
    (u, t) ∈ authLookup db username dom
    ↔ (u, t) ∈ userTenantRows db
      ∧ (u.username_lower = pyStrip (pyLower username)
          ∨ u.email = pyStrip (pyLower username))
      ∧ (∀ d, dom = some d → t.domain = some d)
      ∧ u.is_active = true
      ∧ t.status = TenantStatus.active := by
  unfold authLookup authFilter
  rw [List.mem_filter]
  cases dom with
  | none => simp [and_assoc]
  | some d => simp [and_assoc]

/-- C8 counterexample: starting the application on a completely fresh install
creates a single account with role admin — not three seeded accounts of roles
super_admin, admin and user. -/
theorem startup_fresh_install_counterexample :
    (startupTenantInit emptyDb defaultStartupConfig "t1" "u1" "t2" "u2" "u3"
        "u4" 0).users.length = 1
    ∧ (∀ u ∈ (startupTenantInit emptyDb defaultStartupConfig "t1" "u1" "t2"
        "u2" "u3" "u4" 0).users, u.role = UserRole.admin)
    ∧ ¬ ∃ u ∈ (startupTenantInit emptyDb defaultStartupConfig "t1" "u1" "t2"
        "u2" "u3" "u4" 0).users, u.role = UserRole.super_admin := by decide

/-- C8 amended: on a fresh install (no legacy users, no tenants, no tenant
users) the startup path creates one default tenant with exactly one seeded
account: an admin-role user built from the configured super-admin
username/email/password; ensure_default_tenant's three-account seeding is not
reached because run_migration_if_needed reports that a migration ran. -/
theorem startup_fresh_install_single_admin (db : DB) (cfg : StartupConfig)
    (tid uid tid2 sid aid rid : String) (now : Nat)
    (htenants : db.tenants = []) (hlegacy : db.legacyUsers = [])
    (husers : db.users = []) :
    (startupTenantInit db cfg tid uid tid2 sid aid rid now).tenants.length = 1
    ∧ (startupTenantInit db cfg tid uid tid2 sid aid rid now).users
      = [{ id := uid
           username := cfg.superAdminUsername
           username_lower := pyLower cfg.superAdminUsername
           email := cfg.superAdminEmail
           password := hash_password cfg.superAdminPassword
           tenant_id := tid
           role := UserRole.admin
           is_active := true
           admin := true
           last_login := none }] := by
  unfold startupTenantInit run_migration_if_needed get_migration_status
  simp [htenants, hlegacy, husers, create_tenant]

/-- Witness for startup_fresh_install_single_admin on the empty database with
the default configuration. -/
theorem startup_fresh_install_single_admin_witness :
    emptyDb.tenants = [] ∧ emptyDb.legacyUsers = [] ∧ emptyDb.users = []
    ∧ (startupTenantInit emptyDb defaultStartupConfig "t1" "u1" "t2" "u2"
        "u3" "u4" 0).tenants.length = 1
    ∧ (startupTenantInit emptyDb defaultStartupConfig "t1" "u1" "t2" "u2"
        "u3" "u4" 0).users
      = [{ id := "u1"
           username := defaultStartupConfig.superAdminUsername
           username_lower := pyLower defaultStartupConfig.superAdminUsername
           email := defaultStartupConfig.superAdminEmail
           password := hash_password defaultStartupConfig.superAdminPassword
           tenant_id := "t1"
           role := UserRole.admin
           is_active := true
           admin := true
           last_login := none }] := by
  have h := startup_fresh_install_single_admin emptyDb defaultStartupConfig
    "t1" "u1" "t2" "u2" "u3" "u4" 0 rfl rfl rfl
  exact ⟨rfl, rfl, rfl, h.1, h.2⟩

end Ktem
